import Mathlib

/-!
# go-websocket: ticket store, connection registry and event dispatch

A shallow embedding of `backend/actions/{otp,event,manager,client}.go`.

* Go maps are association lists without duplicate keys (`AList`); the order of
  the list is the order in which a `range` statement visits the entries, so a
  statement proved for every map is proved for every iteration order.
* `time.Time` and `time.Duration` are integers (nanoseconds).
* Values produced by the environment (`uuid.NewString()`, `time.Now()`, what
  the transport delivers, what `encoding/json` answers) are explicit arguments.
* A call that can block for ever in a channel send ends in an `Outcome`: it
  returns, or it is blocked.
-/

namespace GoWebsocket

/-! ## otp.go -/

/-- A `time.Time`, in nanoseconds since the Unix epoch. -/
abbrev Time := Int

/-- A `time.Duration`, in nanoseconds. -/
abbrev Duration := Int

/-- A Go `map[κ]ν`. -/
abbrev GoMap (κ ν : Type) := AList (fun _ : κ => ν)

/-- The struct `OTP`. -/
structure OTP where
  Key : String
  Created : Time
deriving DecidableEq, Repr

/-- The type `RetentionMap map[string]OTP`. -/
abbrev RetentionMap := GoMap String OTP

/-- The function `NewRetentionMap`: `make(RetentionMap)`. The goroutine it starts is `Retention`. -/
def NewRetentionMap : RetentionMap := ∅

/-- The method `NewOTP`: `uuid` is the value of `uuid.NewString()`, `now` of `time.Now()`. -/
def RetentionMap.NewOTP (rm : RetentionMap) (uuid : String) (now : Time) : OTP × RetentionMap :=
  let o : OTP := { Key := uuid, Created := now }
  (o, AList.insert o.Key o rm)

/-- The method `VerifyOTP`: absent key, `false` and nothing changes; present key, delete it
and `true`. -/
def RetentionMap.VerifyOTP (rm : RetentionMap) (otp : String) : Bool × RetentionMap :=
  match AList.lookup otp rm with
  | none => (false, rm)
  | some _ => (true, AList.erase otp rm)

/-- The body of `for _, otp := range rm` in `Retention` when the iteration reaches the key `k`:
an entry deleted before it is reached is not produced; otherwise `otp` is the value stored under
`k`, `clock k` is the value of `time.Now()` in this iteration, and the loop deletes `otp.Key`. -/
def RetentionMap.sweepEntry (retentionPeriod : Duration) (clock : String → Time)
    (rm : RetentionMap) (k : String) : RetentionMap :=
  match AList.lookup k rm with
  | none => rm
  | some otp =>
    if otp.Created + retentionPeriod < clock k then AList.erase otp.Key rm else rm

/-- The `case <-ticker.C` branch of `Retention`: one pass over the map. -/
def RetentionMap.sweep (retentionPeriod : Duration) (clock : String → Time)
    (rm : RetentionMap) : RetentionMap :=
  (AList.keys rm).foldl (RetentionMap.sweepEntry retentionPeriod clock) rm

/-- What the `select` of `Retention` receives. -/
inductive Signal where
  | tick (clock : String → Time)
  | done

/-- The method `Retention`: the loop over the signals received; `ctx.Done()` ends it. -/
def RetentionMap.Retention (retentionPeriod : Duration) :
    List Signal → RetentionMap → RetentionMap
  | [], rm => rm
  | Signal.done :: _, rm => rm
  | Signal.tick clock :: rest, rm =>
    RetentionMap.Retention retentionPeriod rest (RetentionMap.sweep retentionPeriod clock rm)

/-- The stores a program can hold: built from `make` by `NewOTP`, `VerifyOTP` and sweeps. -/
inductive Built (retentionPeriod : Duration) : RetentionMap → Prop where
  | make : Built retentionPeriod NewRetentionMap
  | newOTP (rm : RetentionMap) (uuid : String) (now : Time) :
      Built retentionPeriod rm → Built retentionPeriod (rm.NewOTP uuid now).2
  | verifyOTP (rm : RetentionMap) (otp : String) :
      Built retentionPeriod rm → Built retentionPeriod (rm.VerifyOTP otp).2
  | sweep (rm : RetentionMap) (clock : String → Time) :
      Built retentionPeriod rm → Built retentionPeriod (rm.sweep retentionPeriod clock)

/-- An operation on the ticket store other than a sweep. -/
inductive OtpOp where
  | mint (uuid : String) (now : Time)
  | verify (otp : String)
deriving DecidableEq

/-- Run one store operation, dropping its result. -/
def OtpOp.run (rm : RetentionMap) : OtpOp → RetentionMap
  | OtpOp.mint uuid now => (rm.NewOTP uuid now).2
  | OtpOp.verify otp => (rm.VerifyOTP otp).2

/-- Run a sequence of store operations, left to right. -/
def runOps (rm : RetentionMap) (ops : List OtpOp) : RetentionMap :=
  ops.foldl OtpOp.run rm

/-! ## event.go -/

/-- Bytes on the wire. -/
abbrev Bytes := String

/-- The type `json.RawMessage`. -/
abbrev RawMessage := String

/-- The struct `Event`; `Typ` is the Go field `Type`. -/
structure Event where
  Typ : String
  Payload : RawMessage
deriving DecidableEq, Repr

def EventSendMessage : String := "send_message"

def EventNewMessage : String := "new_message"

def EventChangeRoom : String := "change_room"

/-- The struct `SendMessageEvent`. -/
structure SendMessageEvent where
  Message : String
  From : String
deriving DecidableEq, Repr

/-- The struct `NewMessageEvent`. -/
structure NewMessageEvent extends SendMessageEvent where
  Sent : Time
deriving DecidableEq, Repr

/-- The struct `ChangeRoomEvent`. -/
structure ChangeRoomEvent where
  Name : String
deriving DecidableEq, Repr

/-- The struct `userLoginRequest` of `LoginHandler`. -/
structure userLoginRequest where
  Username : String
  Password : String
deriving DecidableEq, Repr

/-- The struct `response` of `LoginHandler`. -/
structure response where
  OTP : String
deriving DecidableEq, Repr

/-- The calls the program makes into `encoding/json`, one field per call site and target type.
The library is not part of the repository: every definition below takes its behaviour as the
argument `J`, and every theorem holds whatever the library answers. -/
structure JSON where
  /-- The call `json.Unmarshal(payload, &request)` in `readMessages`. -/
  unmarshalEvent : Bytes → Except String Event
  /-- The call `json.Unmarshal(event.Payload, &changeRoomEvent)` in `ChatRoomHandler`. -/
  unmarshalChangeRoom : RawMessage → Except String ChangeRoomEvent
  /-- The call `json.Unmarshal(event.Payload, &chatevent)` in `SendMessage`. -/
  unmarshalSendMessage : RawMessage → Except String SendMessageEvent
  /-- The call `json.Marshal(broadMessage)` in `SendMessage`. -/
  marshalNewMessage : NewMessageEvent → Except String RawMessage
  /-- The call `json.NewDecoder(r.Body).Decode(&req)` in `LoginHandler`. -/
  decodeLogin : Bytes → Except String userLoginRequest
  /-- The call `json.Marshal(resp)` in `LoginHandler`. -/
  marshalResponse : response → Except String Bytes

/-! ## client.go and manager.go: the memory -/

/-- A `*Client`. -/
abbrev Ptr := Nat

/-- A `*websocket.Conn`. -/
abbrev Conn := Nat

/-- An unbuffered channel, as `make(chan Event)` creates it. `sent` lists the events handed over
on it, oldest first. `receiver` says whether the goroutine that receives from it still comes to
receive: for `egress` that goroutine is the loop `writeMessages` of the client, which no longer
receives once it has returned, or while it is held in a write to a peer that has stopped reading
(the program sets no write deadline). A send on a channel without receiver never completes. -/
structure Chan where
  sent : List Event
  receiver : Bool
deriving DecidableEq, Repr

/-- The struct `Client`. The field `manager` is left out: `NewClient` is only called by `ServeWS`
with the one `Manager` of the process. -/
structure Client where
  connection : Conn
  chatroom : String
  egress : Chan
deriving DecidableEq, Repr

/-- The type `ClientList map[*Client]bool`. -/
abbrev ClientList := GoMap Ptr Bool

/-- A statement that reads or writes `Manager.clients`. -/
inductive Access where
  | rangeClients
  | lookupClient
  | insertClient
  | deleteClient
deriving DecidableEq, Repr

/-- The `Manager` (`clients`, the embedded `RWMutex`, `otps`) and the memory around it.
* `heap` holds the `Client` objects and `next` is the next address `NewClient` hands out;
* `mu` says whether the mutex is held;
* `closed` lists the calls of `connection.Close()`, oldest first;
* `unguarded` lists the accesses to `clients` made while the mutex was not held.
The field `handlers` is written once by `NewManager` and is kept apart (`NewManagerHandlers`). -/
structure World where
  heap : Ptr → Client
  next : Ptr
  clients : ClientList
  mu : Bool
  otps : RetentionMap
  closed : List Conn
  unguarded : List Access

/-- The call `m.Lock()`. Calls are run one after the other, so the mutex is free when a call
starts. -/
def World.Lock (w : World) : World := { w with mu := true }

/-- The call `m.Unlock()`. -/
def World.Unlock (w : World) : World := { w with mu := false }

/-- Record an access to `clients`: it is kept in `unguarded` when the mutex is not held. -/
def World.touch (w : World) (a : Access) : World :=
  if w.mu then w else { w with unguarded := w.unguarded ++ [a] }

/-- An assignment `client.field = ...` through the pointer. -/
def World.store (w : World) (p : Ptr) (c : Client) : World :=
  { w with heap := Function.update w.heap p c }

/-- How a call ends: it returns `value` and leaves the state `w`, or it never returns, blocked
in a channel send, the state being `w` at that point. -/
inductive Outcome (α : Type) where
  | returned (value : α) (w : World)
  | blocked (w : World)

/-- The state a call leaves, at its return or at the send where it is blocked. -/
def Outcome.world {α : Type} : Outcome α → World
  | Outcome.returned _ w => w
  | Outcome.blocked w => w

/-- What a call returns, `none` when it does not return. -/
def Outcome.value {α : Type} : Outcome α → Option α
  | Outcome.returned v _ => some v
  | Outcome.blocked _ => none

/-- Sequencing: what follows a call runs only when the call returns. -/
def Outcome.andThen {α β : Type} (o : Outcome α) (rest : α → World → Outcome β) :
    Outcome β :=
  match o with
  | Outcome.returned v w => rest v w
  | Outcome.blocked w => Outcome.blocked w

/-- The statement `client.egress <- event` on the unbuffered channel: it hands the event over
when the channel has its receiver and blocks for ever otherwise. -/
def World.send (w : World) (client : Ptr) (event : Event) : Outcome Unit :=
  if (w.heap client).egress.receiver then
    Outcome.returned ()
      (w.store client
        { w.heap client with
          egress := { (w.heap client).egress with
                      sent := (w.heap client).egress.sent ++ [event] } })
  else Outcome.blocked w

/-- The type `EventHandler func(event Event, c *Client) error`; `now` is what `time.Now()`
returns during the call and the `Option String` is the `error` (`none` for `nil`). -/
abbrev EventHandler := Event → Ptr → Time → World → Outcome (Option String)

/-! ## manager.go -/

/-- The function `ChatRoomHandler`. -/
def ChatRoomHandler (J : JSON) : EventHandler := fun event c _ w =>
  match J.unmarshalChangeRoom event.Payload with
  | Except.error err => Outcome.returned (some ("bad payload in request: " ++ err)) w
  | Except.ok changeRoomEvent =>
    Outcome.returned none (w.store c { w.heap c with chatroom := changeRoomEvent.Name })

/-- The body of `for client := range c.manager.clients` in `SendMessage`. -/
def broadcastStep (outgoingEvent : Event) (c : Ptr) (w : World) (client : Ptr) : Outcome Unit :=
  if (w.heap client).chatroom = (w.heap c).chatroom then
    w.send client outgoingEvent
  else Outcome.returned () w

/-- The loop `for client := range c.manager.clients` of `SendMessage` over the keys in the
order of the iteration: a turn that blocks ends it. -/
def broadcastLoop (outgoingEvent : Event) (c : Ptr) : List Ptr → World → Outcome Unit
  | [], w => Outcome.returned () w
  | client :: rest, w =>
    match broadcastStep outgoingEvent c w client with
    | Outcome.returned _ w => broadcastLoop outgoingEvent c rest w
    | Outcome.blocked w => Outcome.blocked w

/-- The function `SendMessage`. -/
def SendMessage (J : JSON) : EventHandler := fun event c now w =>
  match J.unmarshalSendMessage event.Payload with
  | Except.error err => Outcome.returned (some ("bad payload in request: " ++ err)) w
  | Except.ok chatevent =>
    let broadMessage : NewMessageEvent :=
      { Message := chatevent.Message, From := chatevent.From, Sent := now }
    match J.marshalNewMessage broadMessage with
    | Except.error err => Outcome.returned (some ("error marshalling event: " ++ err)) w
    | Except.ok data =>
      let outgoingEvent : Event := { Payload := data, Typ := EventNewMessage }
      let w := w.touch Access.rangeClients
      match broadcastLoop outgoingEvent c (AList.keys w.clients) w with
      | Outcome.returned _ w => Outcome.returned none w
      | Outcome.blocked w => Outcome.blocked w

/-- The method `setupEventHandlers`, on the map `handlers`. -/
def setupEventHandlers (J : JSON) (handlers : GoMap String EventHandler) :
    GoMap String EventHandler :=
  AList.insert EventChangeRoom (ChatRoomHandler J)
    (AList.insert EventSendMessage (SendMessage J) handlers)

/-- The field `handlers` of the manager `NewManager` returns. -/
def NewManagerHandlers (J : JSON) : GoMap String EventHandler :=
  setupEventHandlers J ∅

/-- The rest of the manager `NewManager` returns: no client, a free mutex, an empty store. -/
def NewManager : World :=
  { heap := fun _ =>
      { connection := 0, chatroom := "", egress := { sent := [], receiver := false } }
    next := 0
    clients := ∅
    mu := false
    otps := NewRetentionMap
    closed := []
    unguarded := [] }

/-- The method `routeEvent`, for a manager whose field `handlers` is `handlers`. -/
def routeEvent (handlers : GoMap String EventHandler) (event : Event) (c : Ptr) (now : Time)
    (w : World) : Outcome (Option String) :=
  match AList.lookup event.Typ handlers with
  | some handler =>
    match handler event c now w with
    | Outcome.returned (some err) w => Outcome.returned (some err) w
    | Outcome.returned none w => Outcome.returned none w
    | Outcome.blocked w => Outcome.blocked w
  | none => Outcome.returned (some "there is no such event type") w

/-- The function `NewClient`: a new object at a new address, with the zero value for `chatroom`
and a new channel, from which nothing receives yet. -/
def NewClient (w : World) (conn : Conn) : Ptr × World :=
  (w.next,
    { w.store w.next
        { connection := conn, chatroom := "", egress := { sent := [], receiver := false } } with
      next := w.next + 1 })

/-- The statement `go client.writeMessages()`: the loop started receives from `client.egress`. -/
def World.goWriteMessages (w : World) (client : Ptr) : World :=
  w.store client
    { w.heap client with egress := { (w.heap client).egress with receiver := true } }

/-- The method `addClient`. -/
def addClient (w : World) (client : Ptr) : World :=
  let w := w.Lock
  let w := w.touch Access.insertClient
  let w := { w with clients := AList.insert client true w.clients }
  w.Unlock

/-- The method `removeClient`. -/
def removeClient (w : World) (client : Ptr) : World :=
  let w := w.Lock
  let w := w.touch Access.lookupClient
  let w :=
    match AList.lookup client w.clients with
    | some _ =>
      let w := { w with closed := w.closed ++ [(w.heap client).connection] }
      let w := w.touch Access.deleteClient
      { w with clients := AList.erase client w.clients }
    | none => w
  w.Unlock

/-- What the HTTP client is sent. -/
structure Response where
  status : Nat
  body : String
deriving DecidableEq, Repr

def StatusOK : Nat := 200

def StatusBadRequest : Nat := 400

def StatusUnauthorized : Nat := 401

def StatusSwitchingProtocols : Nat := 101

/-- The request `ServeWS` receives: the parsed query string `r.URL.Query()` and what
`websocketUpgrader.Upgrade(w, r, nil)` does with it, either the error reply the upgrader writes
itself or the connection. -/
structure UpgradeRequest where
  query : GoMap String (List String)
  upgrade : Except Response Conn

/-- The method `url.Values.Get`: the first value of the key, `""` when there is none. -/
def Values.Get (v : GoMap String (List String)) (key : String) : String :=
  match AList.lookup key v with
  | some (x :: _) => x
  | _ => ""

/-- The method `ServeWS`. The loop that `go client.readMessages()` starts is `readMessages`, run
apart; of `go client.writeMessages()` the state keeps that the channel has its receiver. -/
def ServeWS (w : World) (r : UpgradeRequest) : Response × World :=
  let otp := Values.Get r.query "otp"
  if otp = "" then
    ({ status := StatusUnauthorized, body := "" }, w)
  else
    let (ok, otps) := w.otps.VerifyOTP otp
    let w := { w with otps := otps }
    if !ok then
      ({ status := StatusUnauthorized, body := "" }, w)
    else
      match r.upgrade with
      | Except.error reply => (reply, w)
      | Except.ok conn =>
        let (client, w) := NewClient w conn
        let w := addClient w client
        let w := w.goWriteMessages client
        ({ status := StatusSwitchingProtocols, body := "" }, w)

/-- The method `LoginHandler` on a request with body `body`. A handler that returns without writing
(the branch that logs the `Marshal` error) lets `net/http` answer 200 with an empty body. -/
def LoginHandler (J : JSON) (w : World) (body : Bytes) (uuid : String) (now : Time) :
    Response × World :=
  match J.decodeLogin body with
  | Except.error err => ({ status := StatusBadRequest, body := err ++ "\n" }, w)
  | Except.ok req =>
    if req.Username = "percy" ∧ req.Password = "123" then
      let (otp, otps) := w.otps.NewOTP uuid now
      let w := { w with otps := otps }
      let resp : response := { OTP := otp.Key }
      match J.marshalResponse resp with
      | Except.error _ => ({ status := StatusOK, body := "" }, w)
      | Except.ok data => ({ status := StatusOK, body := data }, w)
    else
      ({ status := StatusUnauthorized, body := "" }, w)

/-! ## client.go -/

/-- What `c.connection.ReadMessage()` returns. -/
inductive ReadResult where
  | err
  | message (payload : Bytes)
deriving DecidableEq, Repr

/-- One turn of the `for` loop of `readMessages`: it returns `true` when the loop goes on and
`false` on `break`, and it is blocked when `routeEvent` is. `handlers` is the table of
`c.manager`. -/
def readIteration (J : JSON) (handlers : GoMap String EventHandler) (c : Ptr) (r : ReadResult)
    (now : Time) (w : World) : Outcome Bool :=
  match r with
  | ReadResult.err => Outcome.returned false w
  | ReadResult.message payload =>
    match J.unmarshalEvent payload with
    | Except.error _ => Outcome.returned false w
    | Except.ok request =>
      (routeEvent handlers request c now w).andThen (fun _ w => Outcome.returned true w)

/-- The `for` loop of `readMessages` over the successive results of `ReadMessage`, each with
the time at which it is handled. A transport that has nothing more to deliver fails the next read,
which is the case of the empty list. -/
def readLoop (J : JSON) (handlers : GoMap String EventHandler) (c : Ptr) :
    List (ReadResult × Time) → World → Outcome Unit
  | [], w => Outcome.returned () w
  | (r, now) :: rest, w =>
    match readIteration J handlers c r now w with
    | Outcome.returned true w => readLoop J handlers c rest w
    | Outcome.returned false w => Outcome.returned () w
    | Outcome.blocked w => Outcome.blocked w

/-- The method `readMessages`: `deadlineErr` says whether `SetReadDeadline` fails; the deferred
`removeClient` runs on every way out of the function. -/
def readMessages (J : JSON) (handlers : GoMap String EventHandler) (c : Ptr)
    (deadlineErr : Bool) (reads : List (ReadResult × Time)) (w : World) : Outcome Unit :=
  (if deadlineErr then Outcome.returned () w else readLoop J handlers c reads w).andThen
    (fun _ w => Outcome.returned () (removeClient w c))

/-! ## Predicates used in the statements -/

/-- Every entry is stored under its own key. -/
def KeyedByOwnKey (rm : RetentionMap) : Prop :=
  ∀ k otp, AList.lookup k rm = some otp → otp.Key = k

/-- The test `otp.Created.Add(retentionPeriod).Before(now)` of `Retention` on what is stored
under a key, `false` when nothing is. -/
def isExpired (retentionPeriod : Duration) (now : Time) : Option OTP → Bool
  | some otp => decide (otp.Created + retentionPeriod < now)
  | none => false

/-- The test of `LoginHandler` on the decoded request. -/
def credentialsOk (req : userLoginRequest) : Prop :=
  req.Username = "percy" ∧ req.Password = "123"

/-- Run a handler on a sequence of events for the client `c`, each with its handling time; a
call that blocks is the last. -/
def handleAll (handler : EventHandler) (c : Ptr) : World → List (Event × Time) → Outcome Unit
  | w, [] => Outcome.returned () w
  | w, e :: rest =>
    match handler e.1 c e.2 w with
    | Outcome.returned _ w => handleAll handler c w rest
    | Outcome.blocked w => Outcome.blocked w

/-! ## Inputs of the examples -/

/-- A stand-in for `encoding/json` used to instantiate the theorems at concrete inputs: it
answers as the library does on the documents below and reports an error on any other input. -/
def exampleJSON : JSON where
  unmarshalEvent b :=
    if b = "\x7b\"type\":\"change_room\",\"payload\":\x7b\"name\":\"lobby\"\x7d\x7d" then
      Except.ok { Typ := "change_room", Payload := "\x7b\"name\":\"lobby\"\x7d" }
    else if b = "\x7b\"type\":\"send_message\",\"payload\":" ++
        "\x7b\"message\":\"hi\",\"from\":\"alice\"\x7d\x7d" then
      Except.ok
        { Typ := "send_message", Payload := "\x7b\"message\":\"hi\",\"from\":\"alice\"\x7d" }
    else if b = "\x7b\"type\":\"dance\",\"payload\":null\x7d" then
      Except.ok { Typ := "dance", Payload := "null" }
    else Except.error "invalid character"
  unmarshalChangeRoom b :=
    if b = "\x7b\"name\":\"lobby\"\x7d" then Except.ok { Name := "lobby" }
    else if b = "\x7b\"name\":\"general\"\x7d" then Except.ok { Name := "general" }
    else Except.error "invalid character"
  unmarshalSendMessage b :=
    if b = "\x7b\"message\":\"hi\",\"from\":\"alice\"\x7d" then
      Except.ok { Message := "hi", From := "alice" }
    else Except.error "invalid character"
  marshalNewMessage e :=
    if e = { Message := "hi", From := "alice", Sent := 0 } then
      Except.ok "\x7b\"message\":\"hi\",\"from\":\"alice\",\"sent\":\"1970-01-01T00:00:00Z\"\x7d"
    else Except.error "unsupported value"
  decodeLogin b :=
    if b = "\x7b\"username\":\"percy\",\"password\":\"123\"\x7d" then
      Except.ok { Username := "percy", Password := "123" }
    else if b = "\x7b\"username\":\"percy\",\"password\":\"abc\"\x7d" then
      Except.ok { Username := "percy", Password := "abc" }
    else if b = "" then Except.error "EOF"
    else Except.error "invalid character"
  marshalResponse r :=
    if r = { OTP := "abc" } then Except.ok "\x7b\"otp\":\"abc\"\x7d"
    else Except.error "unsupported value"

/-- The clients of the example: 0 and 1 are in `"lobby"`, every other one in `"general"`, and
every channel has its receiver. -/
def exampleHeap : Ptr → Client := fun p =>
  if p = 0 then
    { connection := 10, chatroom := "lobby", egress := { sent := [], receiver := true } }
  else if p = 1 then
    { connection := 11, chatroom := "lobby", egress := { sent := [], receiver := true } }
  else { connection := 12, chatroom := "general", egress := { sent := [], receiver := true } }

/-- A manager with the clients 0, 1 and 2 registered, the ticket `"abc"` in the store and the
mutex free. -/
def exampleWorld : World :=
  { heap := exampleHeap
    next := 3
    clients := AList.insert 2 true (AList.insert 1 true (AList.insert 0 true ∅))
    mu := false
    otps := (NewRetentionMap.NewOTP "abc" 0).2
    closed := []
    unguarded := [] }

/-- The event `send_message` with the payload `{"message":"hi","from":"alice"}`. -/
def exampleSend : Event :=
  { Typ := "send_message", Payload := "\x7b\"message\":\"hi\",\"from\":\"alice\"\x7d" }

/-- An upgrade request `/ws?otp=<ticket>` whose handshake would succeed on the connection 13. -/
def exampleUpgrade (ticket : String) : UpgradeRequest :=
  { query := AList.insert "otp" [ticket] ∅, upgrade := Except.ok 13 }

/-- The frame `{"type":"dance","payload":null}`, of a kind no handler is registered for. -/
def exampleDanceFrame : Bytes := "\x7b\"type\":\"dance\",\"payload\":null\x7d"

/-- The event `exampleDanceFrame` decodes to. -/
def exampleDance : Event := { Typ := "dance", Payload := "null" }

/-- The event `change_room` with the payload `{"name":"lobby"}`. -/
def exampleChange : Event :=
  { Typ := "change_room", Payload := "\x7b\"name\":\"lobby\"\x7d" }

/-- A login body with the right credentials. -/
def exampleLogin : Bytes := "\x7b\"username\":\"percy\",\"password\":\"123\"\x7d"

/-- A login body with a wrong password. -/
def exampleBadLogin : Bytes := "\x7b\"username\":\"percy\",\"password\":\"abc\"\x7d"

/-! # Theorems -/

/-! ### Lemmas on the ticket store -/

theorem lookup_erase_eq (rm : RetentionMap) (k a : String) :
    AList.lookup k (AList.erase a rm) = if k = a then none else AList.lookup k rm := by
  by_cases h : k = a
  · subst h; simp
  · simp [h, AList.lookup_erase_ne h]

theorem lookup_insert_eq (rm : RetentionMap) (k a : String) (o : OTP) :
    AList.lookup k (AList.insert a o rm) = if k = a then some o else AList.lookup k rm := by
  by_cases h : k = a
  · subst h; simp
  · simp [h, AList.lookup_insert_ne h]

theorem verifyOTP_fst (rm : RetentionMap) (k : String) :
    (rm.VerifyOTP k).1 = (AList.lookup k rm).isSome := by
  unfold RetentionMap.VerifyOTP
  cases AList.lookup k rm <;> rfl

theorem lookup_verifyOTP (rm : RetentionMap) (k a : String) :
    AList.lookup k (rm.VerifyOTP a).2 = if k = a then none else AList.lookup k rm := by
  unfold RetentionMap.VerifyOTP
  cases h : AList.lookup a rm with
  | none =>
    by_cases hk : k = a
    · subst hk; simp [h]
    · simp [hk]
  | some o => simp [lookup_erase_eq]

theorem lookup_newOTP (rm : RetentionMap) (k uuid : String) (now : Time) :
    AList.lookup k (rm.NewOTP uuid now).2 =
      if k = uuid then some { Key := uuid, Created := now } else AList.lookup k rm := by
  simp [RetentionMap.NewOTP, lookup_insert_eq]


theorem isSome_lookup_run (rm : RetentionMap) (k : String) (op : OtpOp)
    (hop : op ≠ OtpOp.verify k) (h : (AList.lookup k rm).isSome = true) :
    (AList.lookup k (OtpOp.run rm op)).isSome = true := by
  cases op with
  | mint uuid now =>
    simp only [OtpOp.run, lookup_newOTP]
    split <;> simp [h]
  | verify otp =>
    have hne : k ≠ otp := fun e => hop (by rw [e])
    simp only [OtpOp.run, lookup_verifyOTP, if_neg hne, h]

theorem isSome_lookup_runOps (ops : List OtpOp) (rm : RetentionMap) (k : String)
    (hops : ∀ op ∈ ops, op ≠ OtpOp.verify k) (h : (AList.lookup k rm).isSome = true) :
    (AList.lookup k (runOps rm ops)).isSome = true := by
  induction ops generalizing rm with
  | nil => simpa [runOps] using h
  | cons op ops ih =>
    have h1 := isSome_lookup_run rm k op (hops op (List.mem_cons_self _ _)) h
    have := ih (OtpOp.run rm op) (fun o ho => hops o (List.mem_cons_of_mem _ ho)) h1
    simpa [runOps] using this

theorem lookup_run_none (rm : RetentionMap) (k : String) (op : OtpOp)
    (hop : ∀ t, op ≠ OtpOp.mint k t) (h : AList.lookup k rm = none) :
    AList.lookup k (OtpOp.run rm op) = none := by
  cases op with
  | mint uuid now =>
    have hne : k ≠ uuid := fun e => hop now (by rw [e])
    simp only [OtpOp.run, lookup_newOTP, if_neg hne, h]
  | verify otp =>
    simp only [OtpOp.run, lookup_verifyOTP]
    split <;> simp [h]

theorem lookup_runOps_none (ops : List OtpOp) (rm : RetentionMap) (k : String)
    (hops : ∀ op ∈ ops, ∀ t, op ≠ OtpOp.mint k t) (h : AList.lookup k rm = none) :
    AList.lookup k (runOps rm ops) = none := by
  induction ops generalizing rm with
  | nil => simpa [runOps] using h
  | cons op ops ih =>
    have h1 := lookup_run_none rm k op (hops op (List.mem_cons_self _ _)) h
    have := ih (OtpOp.run rm op) (fun o ho => hops o (List.mem_cons_of_mem _ ho)) h1
    simpa [runOps] using this

/-- C1. A ticket minted by `NewOTP` is single-use: as long as no sweep runs and the operations
in between do not present it, the first `VerifyOTP` of its key returns `true`; after that, whatever
verifications follow and whatever other tickets are minted, `VerifyOTP` of its key returns
`false`. -/
theorem NewOTP_single_use (rm : RetentionMap) (uuid : String) (now : Time)
    (before after : List OtpOp)
    (hbefore : ∀ op ∈ before, op ≠ OtpOp.verify uuid)
    (hafter : ∀ op ∈ after, ∀ t, op ≠ OtpOp.mint uuid t) :
    (rm.NewOTP uuid now).1.Key = uuid ∧
    ((runOps (rm.NewOTP uuid now).2 before).VerifyOTP (rm.NewOTP uuid now).1.Key).1 = true ∧
    ((runOps ((runOps (rm.NewOTP uuid now).2 before).VerifyOTP
        (rm.NewOTP uuid now).1.Key).2 after).VerifyOTP (rm.NewOTP uuid now).1.Key).1 = false := by
  have hk : (rm.NewOTP uuid now).1.Key = uuid := rfl
  refine ⟨hk, ?_, ?_⟩
  · rw [hk, verifyOTP_fst]
    apply isSome_lookup_runOps _ _ _ hbefore
    simp [lookup_newOTP]
  · rw [hk, verifyOTP_fst]
    rw [lookup_runOps_none after _ uuid hafter]
    · rfl
    · simp [lookup_verifyOTP]

/-- C1, at a store holding another ticket: `"t1"` is minted, `"t0"` is presented, `"t1"` is
presented (true), `"t2"` is minted and `"t1"` presented again, and `"t1"` is presented (false). -/
theorem NewOTP_single_use_witness :
    ((NewRetentionMap.NewOTP "t0" 5).2.NewOTP "t1" 7).1.Key = "t1" ∧
    ((runOps ((NewRetentionMap.NewOTP "t0" 5).2.NewOTP "t1" 7).2
        [OtpOp.verify "t0"]).VerifyOTP ((NewRetentionMap.NewOTP "t0" 5).2.NewOTP "t1" 7).1.Key).1
      = true ∧
    ((runOps ((runOps ((NewRetentionMap.NewOTP "t0" 5).2.NewOTP "t1" 7).2
        [OtpOp.verify "t0"]).VerifyOTP ((NewRetentionMap.NewOTP "t0" 5).2.NewOTP "t1" 7).1.Key).2
        [OtpOp.mint "t2" 9, OtpOp.verify "t1"]).VerifyOTP
          ((NewRetentionMap.NewOTP "t0" 5).2.NewOTP "t1" 7).1.Key).1 = false :=
  NewOTP_single_use (NewRetentionMap.NewOTP "t0" 5).2 "t1" 7
    [OtpOp.verify "t0"] [OtpOp.mint "t2" 9, OtpOp.verify "t1"]
    (by decide) (by simp)

theorem keyed_empty : KeyedByOwnKey NewRetentionMap := by
  intro k otp h
  simp [NewRetentionMap] at h

theorem keyed_newOTP (rm : RetentionMap) (uuid : String) (now : Time) (h : KeyedByOwnKey rm) :
    KeyedByOwnKey (rm.NewOTP uuid now).2 := by
  intro k otp hk
  rw [lookup_newOTP] at hk
  by_cases e : k = uuid
  · rw [if_pos e] at hk
    cases hk
    exact e.symm
  · rw [if_neg e] at hk
    exact h k otp hk

theorem keyed_erase (rm : RetentionMap) (a : String) (h : KeyedByOwnKey rm) :
    KeyedByOwnKey (AList.erase a rm) := by
  intro k otp hk
  rw [lookup_erase_eq] at hk
  by_cases e : k = a
  · rw [if_pos e] at hk; cases hk
  · rw [if_neg e] at hk; exact h k otp hk

theorem keyed_verifyOTP (rm : RetentionMap) (a : String) (h : KeyedByOwnKey rm) :
    KeyedByOwnKey (rm.VerifyOTP a).2 := by
  unfold RetentionMap.VerifyOTP
  cases AList.lookup a rm with
  | none => exact h
  | some o => exact keyed_erase rm a h

theorem keyed_sweepEntry (p : Duration) (clock : String → Time) (rm : RetentionMap) (k : String)
    (h : KeyedByOwnKey rm) : KeyedByOwnKey (rm.sweepEntry p clock k) := by
  unfold RetentionMap.sweepEntry
  cases AList.lookup k rm with
  | none => exact h
  | some o =>
    dsimp only
    split
    · exact keyed_erase rm _ h
    · exact h

theorem keyed_foldl_sweepEntry (p : Duration) (clock : String → Time) (ks : List String)
    (rm : RetentionMap) (h : KeyedByOwnKey rm) :
    KeyedByOwnKey (ks.foldl (RetentionMap.sweepEntry p clock) rm) := by
  induction ks generalizing rm with
  | nil => exact h
  | cons k ks ih => exact ih _ (keyed_sweepEntry p clock rm k h)

theorem keyed_of_built (p : Duration) (rm : RetentionMap) (h : Built p rm) :
    KeyedByOwnKey rm := by
  induction h with
  | make => exact keyed_empty
  | newOTP rm uuid now _ ih => exact keyed_newOTP rm uuid now ih
  | verifyOTP rm otp _ ih => exact keyed_verifyOTP rm otp ih
  | sweep rm clock _ ih => exact keyed_foldl_sweepEntry p clock _ rm ih

theorem lookup_sweepEntry (p : Duration) (clock : String → Time) (rm : RetentionMap)
    (k k0 : String) (h : KeyedByOwnKey rm) :
    AList.lookup k (rm.sweepEntry p clock k0) =
      if k = k0 ∧ isExpired p (clock k) (AList.lookup k rm) = true then none
      else AList.lookup k rm := by
  unfold RetentionMap.sweepEntry
  cases h0 : AList.lookup k0 rm with
  | none =>
    by_cases e : k = k0
    · subst e; simp [h0, isExpired]
    · simp [e]
  | some o =>
    have hkey : o.Key = k0 := h k0 o h0
    dsimp only
    by_cases e : k = k0
    · subst e
      by_cases hx : o.Created + p < clock k
      · simp [h0, isExpired, hx, hkey]
      · simp [h0, isExpired, hx]
    · by_cases hx : o.Created + p < clock k0
      · simp [hx, hkey, e, lookup_erase_eq]
      · simp [hx, e]

theorem lookup_foldl_sweepEntry (p : Duration) (clock : String → Time) (ks : List String)
    (rm : RetentionMap) (k : String) (h : KeyedByOwnKey rm) :
    AList.lookup k (ks.foldl (RetentionMap.sweepEntry p clock) rm) =
      if k ∈ ks ∧ isExpired p (clock k) (AList.lookup k rm) = true then none
      else AList.lookup k rm := by
  induction ks generalizing rm with
  | nil => simp
  | cons k0 ks ih =>
    rw [List.foldl_cons, ih _ (keyed_sweepEntry p clock rm k0 h),
      lookup_sweepEntry p clock rm k k0 h]
    by_cases e : k = k0 ∧ isExpired p (clock k) (AList.lookup k rm) = true
    · rw [if_pos e]
      obtain ⟨e1, e2⟩ := e
      subst e1
      have hr : k ∈ k :: ks ∧ isExpired p (clock k) (AList.lookup k rm) = true :=
        ⟨List.mem_cons_self _ _, e2⟩
      rw [if_pos hr]
      simp
    · rw [if_neg e]
      by_cases hx : isExpired p (clock k) (AList.lookup k rm) = true
      · have hne : k ≠ k0 := fun e0 => e ⟨e0, hx⟩
        simp [hx, hne]
      · simp [hx]

theorem lookup_sweep (p : Duration) (clock : String → Time) (rm : RetentionMap) (k : String)
    (h : KeyedByOwnKey rm) :
    AList.lookup k (rm.sweep p clock) =
      if isExpired p (clock k) (AList.lookup k rm) = true then none else AList.lookup k rm := by
  unfold RetentionMap.sweep
  rw [lookup_foldl_sweepEntry p clock _ rm k h]
  cases hk : AList.lookup k rm with
  | none => simp [isExpired]
  | some o =>
    have hmem : k ∈ AList.keys rm := by
      rw [← AList.mem_keys, ← AList.lookup_isSome, hk]; rfl
    simp [hmem]

/-- C2. One sweep pass of `Retention` at time `now`, over a store built by `NewOTP`, `VerifyOTP`
and earlier sweeps, deletes exactly the entries with `Created + retentionPeriod < now`: such a
ticket is gone and `VerifyOTP` on it returns `false`; an entry with
`now ≤ Created + retentionPeriod` is still there, unchanged; and a key that held nothing still
holds nothing. The pass is what `Retention` does on one tick of its ticker. -/
theorem sweep_deletes_exactly_expired (retentionPeriod : Duration) (now : Time)
    (rm : RetentionMap) (hbuilt : Built retentionPeriod rm) (k : String) :
    RetentionMap.Retention retentionPeriod [Signal.tick (fun _ => now), Signal.done] rm =
      rm.sweep retentionPeriod (fun _ => now) ∧
    (∀ otp, AList.lookup k rm = some otp → otp.Created + retentionPeriod < now →
      AList.lookup k (rm.sweep retentionPeriod (fun _ => now)) = none ∧
      ((rm.sweep retentionPeriod (fun _ => now)).VerifyOTP k).1 = false) ∧
    (∀ otp, AList.lookup k rm = some otp → now ≤ otp.Created + retentionPeriod →
      AList.lookup k (rm.sweep retentionPeriod (fun _ => now)) = some otp) ∧
    (AList.lookup k rm = none →
      AList.lookup k (rm.sweep retentionPeriod (fun _ => now)) = none) := by
  have hl := lookup_sweep retentionPeriod (fun _ => now) rm k (keyed_of_built _ rm hbuilt)
  refine ⟨rfl, ?_, ?_, ?_⟩
  · intro otp hk hx
    have : AList.lookup k (rm.sweep retentionPeriod (fun _ => now)) = none := by
      rw [hl, hk]; simp [isExpired, hx]
    exact ⟨this, by rw [verifyOTP_fst, this]; rfl⟩
  · intro otp hk hx
    rw [hl, hk]
    simp [isExpired, not_lt.mpr hx]
  · intro hk
    rw [hl, hk]
    simp [isExpired]

/-- C2, at the store holding `"old"` minted at 0 and `"new"` minted at 4000, swept at 5001
with a retention of 5000, for the key `"old"`. -/
theorem sweep_deletes_exactly_expired_witness :
    Built 5000 ((NewRetentionMap.NewOTP "old" 0).2.NewOTP "new" 4000).2 ∧
    (RetentionMap.Retention 5000 [Signal.tick (fun _ => 5001), Signal.done]
        ((NewRetentionMap.NewOTP "old" 0).2.NewOTP "new" 4000).2 =
      RetentionMap.sweep 5000 (fun _ => 5001)
        ((NewRetentionMap.NewOTP "old" 0).2.NewOTP "new" 4000).2 ∧
    (∀ otp, AList.lookup "old" ((NewRetentionMap.NewOTP "old" 0).2.NewOTP "new" 4000).2
        = some otp → otp.Created + 5000 < 5001 →
      AList.lookup "old" (RetentionMap.sweep 5000 (fun _ => 5001)
        ((NewRetentionMap.NewOTP "old" 0).2.NewOTP "new" 4000).2) = none ∧
      ((RetentionMap.sweep 5000 (fun _ => 5001)
        ((NewRetentionMap.NewOTP "old" 0).2.NewOTP "new" 4000).2).VerifyOTP "old").1 = false) ∧
    (∀ otp, AList.lookup "old" ((NewRetentionMap.NewOTP "old" 0).2.NewOTP "new" 4000).2
        = some otp → (5001 : Time) ≤ otp.Created + 5000 →
      AList.lookup "old" (RetentionMap.sweep 5000 (fun _ => 5001)
        ((NewRetentionMap.NewOTP "old" 0).2.NewOTP "new" 4000).2) = some otp) ∧
    (AList.lookup "old" ((NewRetentionMap.NewOTP "old" 0).2.NewOTP "new" 4000).2 = none →
      AList.lookup "old" (RetentionMap.sweep 5000 (fun _ => 5001)
        ((NewRetentionMap.NewOTP "old" 0).2.NewOTP "new" 4000).2) = none)) :=
  ⟨Built.newOTP _ "new" 4000 (Built.newOTP _ "old" 0 Built.make),
   sweep_deletes_exactly_expired 5000 5001 ((NewRetentionMap.NewOTP "old" 0).2.NewOTP "new" 4000).2
    (Built.newOTP _ "new" 4000 (Built.newOTP _ "old" 0 Built.make)) "old"⟩

/-! ### Broadcast -/

theorem addClient_eq (w : World) (c : Ptr) :
    addClient w c = { w with clients := AList.insert c true w.clients, mu := false } := by
  simp [addClient, World.Lock, World.Unlock, World.touch]

theorem removeClient_eq (w : World) (c : Ptr) :
    removeClient w c =
      match AList.lookup c w.clients with
      | some _ =>
        { w with closed := w.closed ++ [(w.heap c).connection],
                 clients := AList.erase c w.clients, mu := false }
      | none => { w with mu := false } := by
  unfold removeClient
  cases h : AList.lookup c w.clients <;>
    simp [World.Lock, World.Unlock, World.touch, h]

theorem removeClient_of_mem (w : World) (c : Ptr) (h : c ∈ w.clients) :
    removeClient w c =
      { w with closed := w.closed ++ [(w.heap c).connection],
               clients := AList.erase c w.clients, mu := false } := by
  rw [removeClient_eq]
  have : (AList.lookup c w.clients).isSome = true := AList.lookup_isSome.mpr h
  cases hl : AList.lookup c w.clients with
  | none => rw [hl] at this; cases this
  | some b => rfl

theorem removeClient_of_not_mem (w : World) (c : Ptr) (h : c ∉ w.clients) :
    removeClient w c = { w with mu := false } := by
  rw [removeClient_eq, AList.lookup_eq_none.mpr h]

theorem NewClient_otps (w : World) (conn : Conn) : (NewClient w conn).2.otps = w.otps := rfl

/-! ### `ServeWS` -/

theorem ServeWS_eq (w : World) (r : UpgradeRequest) :
    ServeWS w r =
      if Values.Get r.query "otp" = "" then ({ status := StatusUnauthorized, body := "" }, w)
      else
        match AList.lookup (Values.Get r.query "otp") w.otps with
        | none => ({ status := StatusUnauthorized, body := "" }, w)
        | some _ =>
          match r.upgrade with
          | Except.error reply =>
            (reply, { w with otps := AList.erase (Values.Get r.query "otp") w.otps })
          | Except.ok conn =>
            ({ status := StatusSwitchingProtocols, body := "" },
              (addClient (NewClient
                { w with otps := AList.erase (Values.Get r.query "otp") w.otps } conn).2
                (NewClient
                  { w with otps := AList.erase (Values.Get r.query "otp") w.otps }
                  conn).1).goWriteMessages
                (NewClient
                  { w with otps := AList.erase (Values.Get r.query "otp") w.otps }
                  conn).1) := by
  unfold ServeWS
  by_cases h : Values.Get r.query "otp" = ""
  · simp [h]
  · simp only [h, if_false]
    unfold RetentionMap.VerifyOTP
    cases hl : AList.lookup (Values.Get r.query "otp") w.otps with
    | none => simp
    | some o =>
      cases hu : r.upgrade <;> simp

theorem ServeWS_consumes (w : World) (r : UpgradeRequest)
    (h : Values.Get r.query "otp" ≠ "") :
    AList.lookup (Values.Get r.query "otp") (ServeWS w r).2.otps = none := by
  rw [ServeWS_eq, if_neg h]
  cases hl : AList.lookup (Values.Get r.query "otp") w.otps with
  | none => exact hl
  | some o =>
    cases hu : r.upgrade with
    | error reply => simp
    | ok conn => simp [addClient_eq, NewClient_otps, World.goWriteMessages, World.store]

/-- C4. Upgrade rejection. When the query parameter `otp` is missing or empty, or is not a key of
the ticket store, `ServeWS` answers 401 with an empty body and the whole state (the set of
clients, the ticket store, the client objects) is unchanged. And whatever a first attempt did, a
second attempt presenting the same ticket is answered 401 and changes nothing. -/
theorem ServeWS_rejects (w : World) (r : UpgradeRequest) :
    ((Values.Get r.query "otp" = "" ∨
        AList.lookup (Values.Get r.query "otp") w.otps = none) →
      ServeWS w r = ({ status := StatusUnauthorized, body := "" }, w)) ∧
    (∀ r2 : UpgradeRequest, Values.Get r2.query "otp" = Values.Get r.query "otp" →
      ServeWS (ServeWS w r).2 r2 =
        ({ status := StatusUnauthorized, body := "" }, (ServeWS w r).2)) := by
  have hrej : ∀ (w0 : World) (r0 : UpgradeRequest),
      (Values.Get r0.query "otp" = "" ∨
        AList.lookup (Values.Get r0.query "otp") w0.otps = none) →
      ServeWS w0 r0 = ({ status := StatusUnauthorized, body := "" }, w0) := by
    intro w0 r0 h0
    rw [ServeWS_eq]
    by_cases he : Values.Get r0.query "otp" = ""
    · rw [if_pos he]
    · rw [if_neg he]
      rcases h0 with h0 | h0
      · exact absurd h0 he
      · rw [h0]
  refine ⟨hrej w r, ?_⟩
  intro r2 h2
  apply hrej
  by_cases he : Values.Get r.query "otp" = ""
  · exact Or.inl (h2.trans he)
  · right
    rw [h2]
    exact ServeWS_consumes w r he

/-- C4 in the example, whose store holds the one ticket `"abc"`: the ticket `"nope"` is
rejected and nothing changes; the ticket `"abc"` is accepted once (101) and rejected when it is
presented again. -/
theorem ServeWS_rejects_witness :
    (Values.Get (exampleUpgrade "nope").query "otp" = "" ∨
      AList.lookup (Values.Get (exampleUpgrade "nope").query "otp") exampleWorld.otps = none) ∧
    ServeWS exampleWorld (exampleUpgrade "nope") =
      ({ status := StatusUnauthorized, body := "" }, exampleWorld) ∧
    (ServeWS exampleWorld (exampleUpgrade "abc")).1 =
      { status := StatusSwitchingProtocols, body := "" } ∧
    Values.Get (exampleUpgrade "abc").query "otp" =
      Values.Get (exampleUpgrade "abc").query "otp" ∧
    ServeWS (ServeWS exampleWorld (exampleUpgrade "abc")).2 (exampleUpgrade "abc") =
      ({ status := StatusUnauthorized, body := "" },
        (ServeWS exampleWorld (exampleUpgrade "abc")).2) :=
  ⟨Or.inr (by decide),
   (ServeWS_rejects exampleWorld (exampleUpgrade "nope")).1 (Or.inr (by decide)),
   rfl, rfl,
   (ServeWS_rejects exampleWorld (exampleUpgrade "abc")).2 (exampleUpgrade "abc") rfl⟩

/-! ### Dispatch -/

theorem lookup_handlers (J : JSON) (kind : String) :
    AList.lookup kind (NewManagerHandlers J) =
      if kind = EventChangeRoom then some (ChatRoomHandler J)
      else if kind = EventSendMessage then some (SendMessage J)
      else none := by
  unfold NewManagerHandlers setupEventHandlers
  by_cases h1 : kind = EventChangeRoom
  · subst h1; simp
  · by_cases h2 : kind = EventSendMessage
    · subst h2
      rw [AList.lookup_insert_ne h1, AList.lookup_insert, if_neg h1, if_pos rfl]
    · rw [AList.lookup_insert_ne h1, AList.lookup_insert_ne h2]
      simp [h1, h2]

theorem routeEvent_known (handlers : GoMap String EventHandler) (handler : EventHandler)
    (event : Event) (c : Ptr) (now : Time) (w : World)
    (h : AList.lookup event.Typ handlers = some handler) :
    routeEvent handlers event c now w = handler event c now w := by
  unfold routeEvent
  rw [h]
  cases hr : handler event c now w with
  | returned e w1 => cases e <;> simp only [hr]
  | blocked w1 => simp only [hr]

theorem routeEvent_unknown (J : JSON) (event : Event) (c : Ptr) (now : Time) (w : World)
    (h1 : event.Typ ≠ EventSendMessage) (h2 : event.Typ ≠ EventChangeRoom) :
    routeEvent (NewManagerHandlers J) event c now w =
      Outcome.returned (some "there is no such event type") w := by
  unfold routeEvent
  rw [lookup_handlers, if_neg h2, if_neg h1]

theorem ChatRoomHandler_error_frame (J : JSON) (event : Event) (c : Ptr) (now : Time)
    (w : World) (err : String)
    (h : (ChatRoomHandler J event c now w).value = some (some err)) :
    ChatRoomHandler J event c now w = Outcome.returned (some err) w := by
  unfold ChatRoomHandler at h ⊢
  cases hd : J.unmarshalChangeRoom event.Payload with
  | error e =>
    rw [hd] at h
    simp only [Outcome.value, Option.some.injEq] at h
    simp only [h]
  | ok ev =>
    rw [hd] at h
    simp [Outcome.value] at h

theorem SendMessage_error_frame (J : JSON) (event : Event) (c : Ptr) (now : Time)
    (w : World) (err : String)
    (h : (SendMessage J event c now w).value = some (some err)) :
    SendMessage J event c now w = Outcome.returned (some err) w := by
  unfold SendMessage at h ⊢
  cases hd : J.unmarshalSendMessage event.Payload with
  | error e =>
    rw [hd] at h
    simp only [Outcome.value, Option.some.injEq] at h
    simp only [h]
  | ok ev =>
    rw [hd] at h
    dsimp only at h ⊢
    cases hm : J.marshalNewMessage { Message := ev.Message, From := ev.From, Sent := now } with
    | error e =>
      rw [hm] at h
      simp only [Outcome.value, Option.some.injEq] at h
      simp only [h]
    | ok data =>
      rw [hm] at h
      dsimp only at h
      cases hb : broadcastLoop { Payload := data, Typ := EventNewMessage } c
          (AList.keys (w.touch Access.rangeClients).clients) (w.touch Access.rangeClients) with
      | returned u w1 =>
        rw [hb] at h
        simp [Outcome.value] at h
      | blocked w1 =>
        rw [hb] at h
        simp [Outcome.value] at h

theorem routeEvent_error_frame (J : JSON) (event : Event) (c : Ptr) (now : Time) (w : World)
    (err : String)
    (h : (routeEvent (NewManagerHandlers J) event c now w).value = some (some err)) :
    routeEvent (NewManagerHandlers J) event c now w = Outcome.returned (some err) w := by
  by_cases h2 : event.Typ = EventChangeRoom
  · have hk := routeEvent_known (NewManagerHandlers J) (ChatRoomHandler J) event c now w
      (by rw [lookup_handlers, if_pos h2])
    rw [hk] at h ⊢
    exact ChatRoomHandler_error_frame J event c now w err h
  · by_cases h1 : event.Typ = EventSendMessage
    · have hk := routeEvent_known (NewManagerHandlers J) (SendMessage J) event c now w
        (by rw [lookup_handlers, if_neg h2, if_pos h1])
      rw [hk] at h ⊢
      exact SendMessage_error_frame J event c now w err h
    · rw [routeEvent_unknown J event c now w h1 h2] at h ⊢
      simp only [Outcome.value, Option.some.injEq] at h
      rw [h]

/-- C5. On the manager built by `NewManager`, `routeEvent` on an event whose kind is neither
`send_message` nor `change_room` returns the error `there is no such event type` and leaves the
whole state unchanged (no handler has run: no room, set of clients or channel has changed), so a
following event is handled exactly as if the unknown one had not arrived; `new_message` and the
empty string are such kinds. For `send_message` it ends as `SendMessage` does and for
`change_room` as `ChatRoomHandler` does, returning what the handler returns. -/
theorem routeEvent_dispatch (J : JSON) (event : Event) (c : Ptr) (now : Time) (w : World) :
    (event.Typ ≠ EventSendMessage → event.Typ ≠ EventChangeRoom →
      routeEvent (NewManagerHandlers J) event c now w =
        Outcome.returned (some "there is no such event type") w ∧
      ∀ (next : Event) (later : Time),
        routeEvent (NewManagerHandlers J) next c later
            (routeEvent (NewManagerHandlers J) event c now w).world =
          routeEvent (NewManagerHandlers J) next c later w) ∧
    (∀ payload, routeEvent (NewManagerHandlers J)
        { Typ := EventNewMessage, Payload := payload } c now w =
      Outcome.returned (some "there is no such event type") w) ∧
    (∀ payload, routeEvent (NewManagerHandlers J) { Typ := "", Payload := payload } c now w =
      Outcome.returned (some "there is no such event type") w) ∧
    (event.Typ = EventSendMessage →
      routeEvent (NewManagerHandlers J) event c now w = SendMessage J event c now w) ∧
    (event.Typ = EventChangeRoom →
      routeEvent (NewManagerHandlers J) event c now w = ChatRoomHandler J event c now w) := by
  refine ⟨?_, ?_, ?_, ?_, ?_⟩
  · intro h1 h2
    have := routeEvent_unknown J event c now w h1 h2
    exact ⟨this, fun next later => by rw [this]; rfl⟩
  · intro payload
    exact routeEvent_unknown J _ c now w
      (show EventNewMessage ≠ EventSendMessage by decide)
      (show EventNewMessage ≠ EventChangeRoom by decide)
  · intro payload
    exact routeEvent_unknown J _ c now w
      (show "" ≠ EventSendMessage by decide) (show "" ≠ EventChangeRoom by decide)
  · intro h
    apply routeEvent_known
    rw [lookup_handlers, h]
    simp [EventSendMessage, EventChangeRoom]
  · intro h
    apply routeEvent_known
    rw [lookup_handlers, if_pos h]

/-- C5 in the example: the kind `dance` is not in the table and nothing changes; the kinds
`send_message` and `change_room` go to their handlers. -/
theorem routeEvent_dispatch_witness :
    exampleDance.Typ ≠ EventSendMessage ∧ exampleDance.Typ ≠ EventChangeRoom ∧
    routeEvent (NewManagerHandlers exampleJSON) exampleDance 0 0 exampleWorld =
      Outcome.returned (some "there is no such event type") exampleWorld ∧
    exampleSend.Typ = EventSendMessage ∧
    routeEvent (NewManagerHandlers exampleJSON) exampleSend 0 0 exampleWorld =
      SendMessage exampleJSON exampleSend 0 0 exampleWorld ∧
    exampleChange.Typ = EventChangeRoom ∧
    routeEvent (NewManagerHandlers exampleJSON) exampleChange 2 0 exampleWorld =
      ChatRoomHandler exampleJSON exampleChange 2 0 exampleWorld :=
  ⟨by decide, by decide,
   ((routeEvent_dispatch exampleJSON exampleDance 0 0 exampleWorld).1
      (by decide) (by decide)).1,
   rfl,
   (routeEvent_dispatch exampleJSON exampleSend 0 0 exampleWorld).2.2.2.1 rfl,
   rfl,
   (routeEvent_dispatch exampleJSON exampleChange 2 0 exampleWorld).2.2.2.2 rfl⟩

/-! ### `ChatRoomHandler` -/

theorem ChatRoomHandler_ok (J : JSON) (event : Event) (c : Ptr) (now : Time) (w : World)
    (name : String) (h : J.unmarshalChangeRoom event.Payload = Except.ok { Name := name }) :
    ChatRoomHandler J event c now w =
      Outcome.returned none (w.store c { w.heap c with chatroom := name }) := by
  unfold ChatRoomHandler
  rw [h]

theorem ChatRoomHandler_error (J : JSON) (event : Event) (c : Ptr) (now : Time) (w : World)
    (err : String) (h : J.unmarshalChangeRoom event.Payload = Except.error err) :
    ChatRoomHandler J event c now w =
      Outcome.returned (some ("bad payload in request: " ++ err)) w := by
  unfold ChatRoomHandler
  rw [h]

theorem ChatRoomHandler_returns (J : JSON) (event : Event) (c : Ptr) (now : Time) (w : World) :
    ∃ e w1, ChatRoomHandler J event c now w = Outcome.returned e w1 := by
  unfold ChatRoomHandler
  cases J.unmarshalChangeRoom event.Payload with
  | error err => exact ⟨_, _, rfl⟩
  | ok ev => exact ⟨_, _, rfl⟩

theorem store_self (w : World) (c : Ptr) (v : Client) (h : w.heap c = v) :
    w.store c v = w := by
  subst h
  unfold World.store
  rw [Function.update_eq_self]

theorem handleAll_errors (J : JSON) (c : Ptr) (events : List (Event × Time)) (w : World)
    (h : ∀ e ∈ events, ∃ err, J.unmarshalChangeRoom e.1.Payload = Except.error err) :
    handleAll (ChatRoomHandler J) c w events = Outcome.returned () w := by
  induction events generalizing w with
  | nil => rfl
  | cons e es ih =>
    obtain ⟨err, he⟩ := h e (List.mem_cons_self _ _)
    simp only [handleAll, ChatRoomHandler_error J e.1 c e.2 w err he]
    exact ih w (fun x hx => h x (List.mem_cons_of_mem _ hx))

theorem handleAll_append (J : JSON) (c : Ptr) (first second : List (Event × Time))
    (w : World) :
    handleAll (ChatRoomHandler J) c w (first ++ second) =
      handleAll (ChatRoomHandler J) c (handleAll (ChatRoomHandler J) c w first).world
        second := by
  induction first generalizing w with
  | nil => rfl
  | cons e es ih =>
    obtain ⟨x, w1, hx⟩ := ChatRoomHandler_returns J e.1 c e.2 w
    simp only [List.cons_append, handleAll, hx]
    exact ih w1

/-- C6. `ChatRoomHandler` on a payload that decodes to `{name}` returns no error, sets the room
of `c` to `name` and changes nothing else: the connection and the channel of `c`, every other
client, the set of clients, the mutex, the ticket store and the closed connections are as before;
handling the same event again leaves the state it produced. On a payload that does not decode it
returns an error and the whole state, the room of `c` included, is unchanged. Hence after any
sequence of `change_room` events the room of `c` is the name of the latest one that decodes. -/
theorem ChatRoomHandler_sets_room (J : JSON) (event : Event) (c : Ptr) (now : Time)
    (w : World) :
    (∀ name, J.unmarshalChangeRoom event.Payload = Except.ok { Name := name } →
      (ChatRoomHandler J event c now w).value = some none ∧
      ((ChatRoomHandler J event c now w).world.heap c).chatroom = name ∧
      ((ChatRoomHandler J event c now w).world.heap c).connection = (w.heap c).connection ∧
      ((ChatRoomHandler J event c now w).world.heap c).egress = (w.heap c).egress ∧
      (∀ p, p ≠ c → (ChatRoomHandler J event c now w).world.heap p = w.heap p) ∧
      (ChatRoomHandler J event c now w).world.next = w.next ∧
      (ChatRoomHandler J event c now w).world.clients = w.clients ∧
      (ChatRoomHandler J event c now w).world.mu = w.mu ∧
      (ChatRoomHandler J event c now w).world.otps = w.otps ∧
      (ChatRoomHandler J event c now w).world.closed = w.closed ∧
      (ChatRoomHandler J event c now w).world.unguarded = w.unguarded ∧
      (∀ later, ChatRoomHandler J event c later (ChatRoomHandler J event c now w).world =
        Outcome.returned none (ChatRoomHandler J event c now w).world) ∧
      (∀ (earlier rest : List (Event × Time)),
        (∀ e ∈ rest, ∃ err, J.unmarshalChangeRoom e.1.Payload = Except.error err) →
        ((handleAll (ChatRoomHandler J) c w (earlier ++ (event, now) :: rest)).world.heap
          c).chatroom = name)) ∧
    (∀ err, J.unmarshalChangeRoom event.Payload = Except.error err →
      ChatRoomHandler J event c now w =
        Outcome.returned (some ("bad payload in request: " ++ err)) w) := by
  refine ⟨?_, fun err h => ChatRoomHandler_error J event c now w err h⟩
  intro name h
  have hrun := fun (t : Time) (w0 : World) => ChatRoomHandler_ok J event c t w0 name h
  refine ⟨?_, ?_, ?_, ?_, ?_, ?_, ?_, ?_, ?_, ?_, ?_, ?_, ?_⟩
  · rw [hrun]; rfl
  · rw [hrun]; simp [Outcome.world, World.store]
  · rw [hrun]; simp [Outcome.world, World.store]
  · rw [hrun]; simp [Outcome.world, World.store]
  · intro p hp
    rw [hrun]
    simp [Outcome.world, World.store, Function.update_noteq hp]
  · rw [hrun]; rfl
  · rw [hrun]; rfl
  · rw [hrun]; rfl
  · rw [hrun]; rfl
  · rw [hrun]; rfl
  · rw [hrun]; rfl
  · intro later
    rw [hrun later, hrun now]
    simp only [Outcome.world]
    congr 1
    apply store_self
    simp [World.store]
  · intro earlier rest hrest
    rw [handleAll_append]
    simp only [handleAll, hrun]
    rw [handleAll_errors J c rest _ hrest]
    simp [Outcome.world, World.store]

/-- C6 in the example: client 2 of `"general"` changes to `"lobby"`; with the payload
`oops`, which does not decode, the handler fails and nothing changes. -/
theorem ChatRoomHandler_sets_room_witness :
    exampleJSON.unmarshalChangeRoom exampleChange.Payload = Except.ok { Name := "lobby" } ∧
    (ChatRoomHandler exampleJSON exampleChange 2 0 exampleWorld).value = some none ∧
    ((ChatRoomHandler exampleJSON exampleChange 2 0 exampleWorld).world.heap 2).chatroom =
      "lobby" ∧
    exampleJSON.unmarshalChangeRoom ({ Typ := "change_room", Payload := "oops" } : Event).Payload
      = Except.error "invalid character" ∧
    ChatRoomHandler exampleJSON { Typ := "change_room", Payload := "oops" } 2 0 exampleWorld =
      Outcome.returned (some ("bad payload in request: " ++ "invalid character"))
        exampleWorld :=
  ⟨rfl,
   ((ChatRoomHandler_sets_room exampleJSON exampleChange 2 0 exampleWorld).1 "lobby" rfl).1,
   ((ChatRoomHandler_sets_room exampleJSON exampleChange 2 0 exampleWorld).1 "lobby" rfl).2.1,
   rfl,
   (ChatRoomHandler_sets_room exampleJSON { Typ := "change_room", Payload := "oops" } 2 0
      exampleWorld).2 "invalid character" rfl⟩

/-! ### `removeClient` -/

theorem iterate_removeClient (c : Ptr) (n : Nat) (w : World) (h : c ∉ w.clients)
    (hmu : w.mu = false) :
    Nat.iterate (fun x => removeClient x c) n w = w := by
  induction n with
  | zero => rfl
  | succ n ih =>
    rw [Function.iterate_succ_apply, removeClient_of_not_mem w c h]
    have : ({ w with mu := false } : World) = w := by
      cases w; simp only at hmu; subst hmu; rfl
    rw [this]
    exact ih

/-- C7. `removeClient` is an idempotent teardown. If `c` is registered it closes the connection
of `c` once and deletes `c`, and only `c`, from the set. If `c` is not registered nothing is
closed and the set is unchanged (with the mutex free, the state is unchanged). In both cases the
client objects and the ticket store are untouched, `removeClient` twice is `removeClient` once,
and after `addClient` any positive number of `removeClient` calls (the deferred calls of
`readMessages` and of `writeMessages` are such calls) closes the connection exactly once and
leaves `c` unregistered. -/
theorem removeClient_idempotent (w : World) (c : Ptr) :
    (c ∈ w.clients →
      (removeClient w c).closed = w.closed ++ [(w.heap c).connection] ∧
      (removeClient w c).clients = AList.erase c w.clients ∧
      c ∉ (removeClient w c).clients ∧
      (∀ p, p ≠ c → AList.lookup p (removeClient w c).clients = AList.lookup p w.clients)) ∧
    (c ∉ w.clients →
      (removeClient w c).closed = w.closed ∧ (removeClient w c).clients = w.clients ∧
      (w.mu = false → removeClient w c = w)) ∧
    (removeClient w c).heap = w.heap ∧ (removeClient w c).otps = w.otps ∧
    removeClient (removeClient w c) c = removeClient w c ∧
    (∀ n : Nat,
      (Nat.iterate (fun x => removeClient x c) (n + 1) (addClient w c)).closed =
        w.closed ++ [(w.heap c).connection] ∧
      c ∉ (Nat.iterate (fun x => removeClient x c) (n + 1) (addClient w c)).clients ∧
      (∀ p, p ≠ c →
        AList.lookup p (Nat.iterate (fun x => removeClient x c) (n + 1) (addClient w c)).clients
          = AList.lookup p w.clients)) := by
  have hgone : ∀ w0 : World, c ∈ w0.clients → c ∉ (removeClient w0 c).clients := by
    intro w0 h0
    rw [removeClient_of_mem w0 c h0]
    simp [AList.mem_erase]
  have hmu : ∀ w0 : World, (removeClient w0 c).mu = false := by
    intro w0
    rw [removeClient_eq]
    cases AList.lookup c w0.clients <;> rfl
  have hnoop : ∀ w0 : World, c ∉ w0.clients → w0.mu = false → removeClient w0 c = w0 := by
    intro w0 h0 hm
    rw [removeClient_of_not_mem w0 c h0]
    cases w0; simp only at hm; subst hm; rfl
  have hnot : ∀ w0 : World, c ∉ (removeClient w0 c).clients := by
    intro w0
    by_cases h0 : c ∈ w0.clients
    · exact hgone w0 h0
    · rw [removeClient_of_not_mem w0 c h0]; exact h0
  refine ⟨?_, ?_, ?_, ?_, ?_, ?_⟩
  · intro h
    refine ⟨?_, ?_, hgone w h, ?_⟩
    · rw [removeClient_of_mem w c h]
    · rw [removeClient_of_mem w c h]
    · intro p hp
      rw [removeClient_of_mem w c h]
      exact AList.lookup_erase_ne hp
  · intro h
    refine ⟨?_, ?_, hnoop w h⟩
    · rw [removeClient_of_not_mem w c h]
    · rw [removeClient_of_not_mem w c h]
  · rw [removeClient_eq]
    cases AList.lookup c w.clients <;> rfl
  · rw [removeClient_eq]
    cases AList.lookup c w.clients <;> rfl
  · exact hnoop (removeClient w c) (hnot w) (hmu w)
  · intro n
    have hin : c ∈ (addClient w c).clients := by
      rw [addClient_eq]; simp [AList.mem_insert]
    have hiter : Nat.iterate (fun x => removeClient x c) (n + 1) (addClient w c) =
        removeClient (addClient w c) c := by
      rw [Function.iterate_succ_apply]
      exact iterate_removeClient c n _ (hnot _) (hmu _)
    rw [hiter]
    refine ⟨?_, hnot _, ?_⟩
    · rw [removeClient_of_mem _ c hin, addClient_eq]
    · intro p hp
      rw [removeClient_of_mem _ c hin, addClient_eq]
      simp only
      rw [AList.lookup_erase_ne hp, AList.lookup_insert_ne hp]

/-- C7 in the example: client 1 is registered, client 7 is not. -/
theorem removeClient_idempotent_witness :
    ((1 : Ptr) ∈ exampleWorld.clients ∧
      (removeClient exampleWorld 1).closed =
        exampleWorld.closed ++ [(exampleWorld.heap 1).connection] ∧
      (1 : Ptr) ∉ (removeClient exampleWorld 1).clients) ∧
    ((7 : Ptr) ∉ exampleWorld.clients ∧ exampleWorld.mu = false ∧
      removeClient exampleWorld 7 = exampleWorld) :=
  ⟨⟨by decide, ((removeClient_idempotent exampleWorld 1).1 (by decide)).1,
      ((removeClient_idempotent exampleWorld 1).1 (by decide)).2.2.1⟩,
   ⟨by decide, rfl, ((removeClient_idempotent exampleWorld 7).2.1 (by decide)).2.2 rfl⟩⟩

/-! ### `readMessages` -/

/-- C8. Inbound loop policy, on the manager built by `NewManager`. One turn of the loop of
`readMessages` ends the loop exactly when the read fails or the frame does not decode into an
`Event`; it then changes nothing and `readMessages` finishes with `removeClient`. For a frame that
decodes, the turn ends as `routeEvent` does and, whatever `routeEvent` returns, the loop goes on
with the state `routeEvent` left, `readMessages` continuing with the next read; when `routeEvent`
returns an error that state is the state before the frame, so only that message is dropped. -/
theorem readIteration_policy (J : JSON) (c : Ptr) (r : ReadResult) (now : Time) (w : World) :
    ((readIteration J (NewManagerHandlers J) c r now w).value = some false ↔
      (r = ReadResult.err ∨
        ∃ payload err, r = ReadResult.message payload ∧
          J.unmarshalEvent payload = Except.error err)) ∧
    ((readIteration J (NewManagerHandlers J) c r now w).value = some false →
      readIteration J (NewManagerHandlers J) c r now w = Outcome.returned false w ∧
      ∀ rest, readMessages J (NewManagerHandlers J) c false ((r, now) :: rest) w =
        Outcome.returned () (removeClient w c)) ∧
    (∀ payload request, r = ReadResult.message payload →
      J.unmarshalEvent payload = Except.ok request →
      readIteration J (NewManagerHandlers J) c r now w =
        (routeEvent (NewManagerHandlers J) request c now w).andThen
          (fun _ w1 => Outcome.returned true w1) ∧
      (∀ result w1, routeEvent (NewManagerHandlers J) request c now w =
          Outcome.returned result w1 →
        readIteration J (NewManagerHandlers J) c r now w = Outcome.returned true w1) ∧
      (∀ err, (routeEvent (NewManagerHandlers J) request c now w).value = some (some err) →
        readIteration J (NewManagerHandlers J) c r now w = Outcome.returned true w) ∧
      ∀ rest, readMessages J (NewManagerHandlers J) c false ((r, now) :: rest) w =
        (routeEvent (NewManagerHandlers J) request c now w).andThen
          (fun _ w1 => readMessages J (NewManagerHandlers J) c false rest w1)) := by
  cases r with
  | err =>
    refine ⟨⟨fun _ => Or.inl rfl, fun _ => rfl⟩, fun _ => ⟨rfl, fun rest => rfl⟩, ?_⟩
    intro payload request h
    cases h
  | message payload =>
    cases hd : J.unmarshalEvent payload with
    | error err =>
      have hit : readIteration J (NewManagerHandlers J) c (ReadResult.message payload) now w =
          Outcome.returned false w := by
        simp only [readIteration, hd]
      refine ⟨⟨fun _ => Or.inr ⟨payload, err, rfl, hd⟩, fun _ => by rw [hit]; rfl⟩,
        ?_, ?_⟩
      · intro _
        refine ⟨hit, fun rest => ?_⟩
        simp only [readMessages, readLoop, hit, Bool.false_eq_true, if_false, Outcome.andThen]
      · intro payload2 request h h2
        cases h
        rw [hd] at h2
        cases h2
    | ok request =>
      have hit : readIteration J (NewManagerHandlers J) c (ReadResult.message payload) now w =
          (routeEvent (NewManagerHandlers J) request c now w).andThen
            (fun _ w1 => Outcome.returned true w1) := by
        simp only [readIteration, hd]
      have hnot : (readIteration J (NewManagerHandlers J) c (ReadResult.message payload) now
          w).value ≠ some false := by
        rw [hit]
        cases routeEvent (NewManagerHandlers J) request c now w <;>
          simp [Outcome.andThen, Outcome.value]
      refine ⟨⟨fun h => absurd h hnot, ?_⟩, fun h => absurd h hnot, ?_⟩
      · intro h
        rcases h with h | ⟨p2, err, h, h2⟩
        · cases h
        · cases h
          rw [hd] at h2
          cases h2
      · intro payload2 request2 h h2
        cases h
        rw [hd] at h2
        cases h2
        refine ⟨hit, ?_, ?_, ?_⟩
        · intro result w1 hr
          rw [hit, hr]
          rfl
        · intro err herr
          rw [hit, routeEvent_error_frame J request c now w err herr]
          rfl
        · intro rest
          simp only [readMessages, readLoop, hit, Bool.false_eq_true, if_false]
          cases routeEvent (NewManagerHandlers J) request c now w <;> rfl

/-- C8 in the example: a frame of the unknown kind `dance` decodes, `routeEvent` fails, and
the loop goes on with the state unchanged; a failed read ends the loop and `readMessages`
unregisters the client. -/
theorem readIteration_policy_witness :
    exampleJSON.unmarshalEvent exampleDanceFrame = Except.ok exampleDance ∧
    (routeEvent (NewManagerHandlers exampleJSON) exampleDance 0 0 exampleWorld).value =
      some (some "there is no such event type") ∧
    readIteration exampleJSON (NewManagerHandlers exampleJSON) 0
      (ReadResult.message exampleDanceFrame) 0 exampleWorld =
        Outcome.returned true exampleWorld ∧
    (readIteration exampleJSON (NewManagerHandlers exampleJSON) 0 ReadResult.err 0
      exampleWorld).value = some false ∧
    readMessages exampleJSON (NewManagerHandlers exampleJSON) 0 false
      [(ReadResult.err, 0)] exampleWorld = Outcome.returned () (removeClient exampleWorld 0) :=
  have hr : (routeEvent (NewManagerHandlers exampleJSON) exampleDance 0 0 exampleWorld).value =
      some (some "there is no such event type") := by
    rw [routeEvent_unknown exampleJSON exampleDance 0 0 exampleWorld (by decide) (by decide)]
    rfl
  ⟨rfl, hr,
   ((readIteration_policy exampleJSON 0 (ReadResult.message exampleDanceFrame) 0
      exampleWorld).2.2 exampleDanceFrame exampleDance rfl rfl).2.2.1 _ hr,
   rfl,
   ((readIteration_policy exampleJSON 0 ReadResult.err 0 exampleWorld).2.1 rfl).2 []⟩

/-! ### `LoginHandler` -/

/-- C9, counterexample. A login request with an empty body, which `encoding/json` cannot decode
(`Decode` returns `EOF`), is answered 400 Bad Request with the error text: a case where the
credential check has not succeeded and the answer is not 401. -/
theorem LoginHandler_empty_body_is_400 :
    exampleJSON.decodeLogin "" = Except.error "EOF" ∧
    LoginHandler exampleJSON exampleWorld "" "abc" 0 =
      ({ status := 400, body := "EOF\n" }, exampleWorld) ∧
    (LoginHandler exampleJSON exampleWorld "" "abc" 0).1.status ≠ StatusUnauthorized ∧
    (LoginHandler exampleJSON exampleWorld "" "abc" 0).1.status ≠ StatusOK :=
  ⟨rfl, rfl, by decide, by decide⟩

/-- C9, amended. `LoginHandler` answers 400 with the decoding error when the body does not
decode, and 401 with an empty body when the body decodes and the credentials are not
`percy`/`123`; in both cases the state is unchanged, so nothing is minted. When the body decodes
and the credentials are right, it mints a ticket with `NewOTP` and, the answer `{otp: key}`
encoding to `data`, answers 200 with the body `data`, where `key` is the key of the ticket just
minted, now in the store with its creation time; nothing but the store changes. -/
theorem LoginHandler_responses (J : JSON) (w : World) (body : Bytes) (uuid : String)
    (now : Time) :
    (∀ err, J.decodeLogin body = Except.error err →
      LoginHandler J w body uuid now =
        ({ status := StatusBadRequest, body := err ++ "\n" }, w)) ∧
    (∀ req, J.decodeLogin body = Except.ok req → ¬ credentialsOk req →
      LoginHandler J w body uuid now = ({ status := StatusUnauthorized, body := "" }, w)) ∧
    (∀ req data, J.decodeLogin body = Except.ok req → credentialsOk req →
      J.marshalResponse { OTP := (w.otps.NewOTP uuid now).1.Key } = Except.ok data →
      LoginHandler J w body uuid now =
        ({ status := StatusOK, body := data },
          { w with otps := (w.otps.NewOTP uuid now).2 }) ∧
      AList.lookup (w.otps.NewOTP uuid now).1.Key (LoginHandler J w body uuid now).2.otps =
        some (w.otps.NewOTP uuid now).1 ∧
      (w.otps.NewOTP uuid now).1 = { Key := uuid, Created := now }) := by
  refine ⟨?_, ?_, ?_⟩
  · intro err h
    simp only [LoginHandler, h]
  · intro req h hc
    unfold credentialsOk at hc
    simp only [LoginHandler, h, hc, if_false]
  · intro req data h hc hm
    unfold credentialsOk at hc
    have hrun : LoginHandler J w body uuid now =
        ({ status := StatusOK, body := data },
          { w with otps := (w.otps.NewOTP uuid now).2 }) := by
      simp only [LoginHandler, h, hc, and_self, if_true, hm]
    refine ⟨hrun, ?_, rfl⟩
    rw [hrun]
    simp [lookup_newOTP, RetentionMap.NewOTP]

/-- C9, amended, in the example: the empty body is answered 400, the credentials
`percy`/`abc` are answered 401, and `percy`/`123` on the fresh manager is answered 200 with the
key of the ticket minted. -/
theorem LoginHandler_responses_witness :
    (exampleJSON.decodeLogin "" = Except.error "EOF" ∧
      LoginHandler exampleJSON exampleWorld "" "abc" 0 =
        ({ status := StatusBadRequest, body := "EOF" ++ "\n" }, exampleWorld)) ∧
    (exampleJSON.decodeLogin exampleBadLogin =
        Except.ok { Username := "percy", Password := "abc" } ∧
      ¬ credentialsOk { Username := "percy", Password := "abc" } ∧
      LoginHandler exampleJSON exampleWorld exampleBadLogin "abc" 0 =
        ({ status := StatusUnauthorized, body := "" }, exampleWorld)) ∧
    (exampleJSON.decodeLogin exampleLogin =
        Except.ok { Username := "percy", Password := "123" } ∧
      credentialsOk { Username := "percy", Password := "123" } ∧
      exampleJSON.marshalResponse { OTP := (NewManager.otps.NewOTP "abc" 0).1.Key } =
        Except.ok "\x7b\"otp\":\"abc\"\x7d" ∧
      LoginHandler exampleJSON NewManager exampleLogin "abc" 0 =
        ({ status := StatusOK, body := "\x7b\"otp\":\"abc\"\x7d" },
          { NewManager with otps := (NewManager.otps.NewOTP "abc" 0).2 })) :=
  ⟨⟨rfl, (LoginHandler_responses exampleJSON exampleWorld "" "abc" 0).1 "EOF" rfl⟩,
   ⟨rfl, by unfold credentialsOk; decide,
    (LoginHandler_responses exampleJSON exampleWorld exampleBadLogin "abc" 0).2.1
      { Username := "percy", Password := "abc" } rfl (by unfold credentialsOk; decide)⟩,
   ⟨rfl, ⟨rfl, rfl⟩, rfl,
    ((LoginHandler_responses exampleJSON NewManager exampleLogin "abc" 0).2.2
      { Username := "percy", Password := "123" } "\x7b\"otp\":\"abc\"\x7d" rfl ⟨rfl, rfl⟩
      rfl).1⟩⟩

/-! ### Lock discipline -/

/-- C10, evaluation. With the mutex free, `SendMessage` ranges over `clients` without taking
it: the access is recorded as unguarded and the mutex is still free afterwards, while
`addClient` and `removeClient` make every access to `clients` with the mutex held. -/
theorem SendMessage_ranges_without_lock :
    exampleWorld.mu = false ∧ exampleWorld.unguarded = [] ∧
    (SendMessage exampleJSON exampleSend 0 0 exampleWorld).value = some none ∧
    (SendMessage exampleJSON exampleSend 0 0 exampleWorld).world.unguarded =
      [Access.rangeClients] ∧
    (SendMessage exampleJSON exampleSend 0 0 exampleWorld).world.mu = false ∧
    (addClient exampleWorld 3).unguarded = [] ∧
    (removeClient exampleWorld 1).unguarded = [] ∧
    (removeClient exampleWorld 7).unguarded = [] := by
  refine ⟨rfl, rfl, rfl, rfl, rfl, rfl, ?_, ?_⟩
  · rw [removeClient_eq]; rfl
  · rw [removeClient_eq]; rfl

end GoWebsocket
